import Mathlib

/-!
Verification development for the staff_system (Synapse Council) repository.

The Python source is shallowly embedded: dataclasses become structures,
mutating methods become state-passing functions, `time.time()` becomes an
explicit `now : Rat` argument, and Python floats are modelled as rationals
(`Rat`) so that all arithmetic is exact and computable.  Functions that can
raise return `Except String _` or pair their result with the new state.
-/

namespace StaffSystem

/-! ## Resilience layer (src/utils/resilience.py) -/

/-- Circuit breaker states, from `CircuitState` in src/utils/resilience.py. -/
inductive CircuitState where
  | CLOSED
  | OPEN
  | HALF_OPEN
deriving DecidableEq, Repr

/-- `RetryConfig` from src/utils/resilience.py (delays as rationals). -/
structure RetryConfig where
  max_attempts : Nat := 3
  base_delay : Rat := 1
  max_delay : Rat := 60
  exponential_base : Rat := 2
  jitter : Bool := true
deriving DecidableEq, Repr

/-- `CircuitBreakerConfig` from src/utils/resilience.py. -/
structure CircuitBreakerConfig where
  failure_threshold : Nat := 5
  recovery_timeout : Rat := 30
  half_open_max_calls : Nat := 3
deriving DecidableEq, Repr

/-- `CircuitBreaker` dataclass from src/utils/resilience.py. -/
structure CircuitBreaker where
  config : CircuitBreakerConfig
  state : CircuitState := CircuitState.CLOSED
  failure_count : Nat := 0
  last_failure_time : Rat := 0
  half_open_calls : Nat := 0
deriving DecidableEq, Repr

/-- `CircuitBreaker.can_execute`, with `time.time()` passed explicitly as
`now`.  Returns the boolean result together with the (possibly mutated)
breaker, since the OPEN and HALF_OPEN branches mutate the breaker. -/
def CircuitBreaker.can_execute (cb : CircuitBreaker) (now : Rat) : Bool × CircuitBreaker :=
  match cb.state with
  | CircuitState.CLOSED => (true, cb)
  | CircuitState.OPEN =>
      if cb.config.recovery_timeout ≤ now - cb.last_failure_time then
        (true, { cb with state := CircuitState.HALF_OPEN, half_open_calls := 0 })
      else
        (false, cb)
  | CircuitState.HALF_OPEN =>
      if cb.half_open_calls < cb.config.half_open_max_calls then
        (true, { cb with half_open_calls := cb.half_open_calls + 1 })
      else
        (false, cb)

/-- `CircuitBreaker.record_success` from src/utils/resilience.py. -/
def CircuitBreaker.record_success (cb : CircuitBreaker) : CircuitBreaker :=
  let cb :=
    if cb.state = CircuitState.HALF_OPEN then
      { cb with state := CircuitState.CLOSED }
    else cb
  { cb with failure_count := 0 }

/-- `CircuitBreaker.record_failure` from src/utils/resilience.py, with
`time.time()` passed explicitly as `now`. -/
def CircuitBreaker.record_failure (cb : CircuitBreaker) (now : Rat) : CircuitBreaker :=
  let cb := { cb with failure_count := cb.failure_count + 1, last_failure_time := now }
  if cb.state = CircuitState.HALF_OPEN then
    { cb with state := CircuitState.OPEN }
  else if cb.config.failure_threshold ≤ cb.failure_count then
    { cb with state := CircuitState.OPEN }
  else
    cb

/-- Fold `record_failure` over a list of call times (consecutive
`record_failure()` calls with no intervening `record_success()`). -/
def CircuitBreaker.record_failures (cb : CircuitBreaker) (ts : List Rat) : CircuitBreaker :=
  ts.foldl CircuitBreaker.record_failure cb

/-- `calculate_delay` from src/utils/resilience.py.  The value drawn by
`random.uniform(-jitter_range, jitter_range)` is passed in explicitly as
`jitterDraw`; it is only added when `jitter` is enabled. -/
def calculate_delay (attempt : Nat) (config : RetryConfig) (jitterDraw : Rat) : Rat :=
  let delay := config.base_delay * config.exponential_base ^ attempt
  let delay := min delay config.max_delay
  let delay := if config.jitter then delay + jitterDraw else delay
  max 0 delay

/-! ### Circuit-breaker lemmas -/

theorem record_failures_nil (cb : CircuitBreaker) : cb.record_failures [] = cb := rfl

theorem record_failures_cons (cb : CircuitBreaker) (t : Rat) (ts : List Rat) :
    cb.record_failures (t :: ts) = (cb.record_failure t).record_failures ts := rfl

theorem record_failure_config (cb : CircuitBreaker) (now : Rat) :
    (cb.record_failure now).config = cb.config := by
  unfold CircuitBreaker.record_failure
  dsimp only
  split
  · rfl
  · split <;> rfl

theorem record_failure_closed_step (cb : CircuitBreaker) (now : Rat)
    (hs : cb.state = CircuitState.CLOSED)
    (h : ¬ cb.config.failure_threshold ≤ cb.failure_count + 1) :
    (cb.record_failure now).state = CircuitState.CLOSED ∧
    (cb.record_failure now).failure_count = cb.failure_count + 1 := by
  unfold CircuitBreaker.record_failure
  simp [hs, h]

theorem record_failure_opens_step (cb : CircuitBreaker) (now : Rat)
    (hs : cb.state = CircuitState.CLOSED)
    (h : cb.config.failure_threshold ≤ cb.failure_count + 1) :
    (cb.record_failure now).state = CircuitState.OPEN := by
  unfold CircuitBreaker.record_failure
  simp [hs, h]

theorem record_failure_open_step (cb : CircuitBreaker) (now : Rat)
    (hs : cb.state = CircuitState.OPEN) :
    (cb.record_failure now).state = CircuitState.OPEN := by
  unfold CircuitBreaker.record_failure
  dsimp only
  rw [if_neg (by simp [hs])]
  split <;> simp [hs]

theorem record_failures_closed (ts : List Rat) (cb : CircuitBreaker)
    (hs : cb.state = CircuitState.CLOSED)
    (hlt : cb.failure_count + ts.length < cb.config.failure_threshold) :
    (cb.record_failures ts).state = CircuitState.CLOSED ∧
    (cb.record_failures ts).failure_count = cb.failure_count + ts.length := by
  induction ts generalizing cb with
  | nil => exact ⟨by rw [record_failures_nil]; exact hs, by rw [record_failures_nil]; simp⟩
  | cons t ts ih =>
      have hlt1 : ¬ cb.config.failure_threshold ≤ cb.failure_count + 1 := by
        simp only [List.length_cons] at hlt
        omega
      have hstep := record_failure_closed_step cb t hs hlt1
      have hcfg := record_failure_config cb t
      have hrec := ih (cb.record_failure t) hstep.1 (by
        rw [hstep.2, hcfg]
        simp only [List.length_cons] at hlt
        omega)
      rw [record_failures_cons]
      refine ⟨hrec.1, ?_⟩
      rw [hrec.2, hstep.2]
      simp only [List.length_cons]
      omega

theorem record_failures_open (ts : List Rat) (cb : CircuitBreaker)
    (hs : cb.state = CircuitState.OPEN) :
    (cb.record_failures ts).state = CircuitState.OPEN := by
  induction ts generalizing cb with
  | nil => rw [record_failures_nil]; exact hs
  | cons t ts ih =>
      rw [record_failures_cons]
      exact ih (cb.record_failure t) (record_failure_open_step cb t hs)

theorem record_failures_opens (ts : List Rat) (cb : CircuitBreaker)
    (hs : cb.state = CircuitState.CLOSED)
    (hge : cb.config.failure_threshold ≤ cb.failure_count + ts.length)
    (hne : ts ≠ []) :
    (cb.record_failures ts).state = CircuitState.OPEN := by
  induction ts generalizing cb with
  | nil => exact absurd rfl hne
  | cons t ts ih =>
      rw [record_failures_cons]
      by_cases h : cb.config.failure_threshold ≤ cb.failure_count + 1
      · exact record_failures_open ts _ (record_failure_opens_step cb t hs h)
      · have hstep := record_failure_closed_step cb t hs h
        have hcfg := record_failure_config cb t
        cases ts with
        | nil =>
            exfalso
            simp only [List.length_cons, List.length_nil] at hge
            omega
        | cons u us =>
            refine ih (cb.record_failure t) hstep.1 ?_ (by simp)
            rw [hstep.2, hcfg]
            simp only [List.length_cons] at hge ⊢
            omega

theorem can_execute_open_false (cb : CircuitBreaker) (now : Rat)
    (hs : cb.state = CircuitState.OPEN)
    (h : now - cb.last_failure_time < cb.config.recovery_timeout) :
    (cb.can_execute now).1 = false := by
  unfold CircuitBreaker.can_execute
  simp [hs, not_le.mpr h]

/-- C5: starting from CLOSED with `failure_count = 0` and
`failure_threshold = k ≥ 1`, every strict prefix of `k` consecutive
`record_failure()` calls leaves the breaker CLOSED, the `k`-th call moves it
to OPEN, and `can_execute()` returns false while the recovery timeout has
not yet elapsed since the last failure. -/
theorem circuit_breaker_opens_after_threshold (cb : CircuitBreaker) (ts : List Rat)
    (hs : cb.state = CircuitState.CLOSED) (h0 : cb.failure_count = 0)
    (hk : 1 ≤ cb.config.failure_threshold)
    (hlen : ts.length = cb.config.failure_threshold) :
    (∀ j, j < cb.config.failure_threshold →
        (cb.record_failures (ts.take j)).state = CircuitState.CLOSED) ∧
    (cb.record_failures ts).state = CircuitState.OPEN ∧
    (∀ now, now - (cb.record_failures ts).last_failure_time <
        (cb.record_failures ts).config.recovery_timeout →
      ((cb.record_failures ts).can_execute now).1 = false) := by
  have hopen : (cb.record_failures ts).state = CircuitState.OPEN := by
    refine record_failures_opens ts cb hs (by omega) ?_
    intro hnil
    rw [hnil] at hlen
    simp at hlen
    omega
  refine ⟨?_, hopen, ?_⟩
  · intro j hj
    refine (record_failures_closed (ts.take j) cb hs ?_).1
    rw [h0, List.length_take, hlen]
    omega
  · intro now hnow
    exact can_execute_open_false _ now hopen hnow

/-- Witness for C5 at a concrete breaker with threshold 2 and two failures
at times 0 and 1, checked at time 1. -/
theorem circuit_breaker_opens_after_threshold_witness :
    (CircuitBreaker.record_failures
        ⟨⟨2, 30, 3⟩, CircuitState.CLOSED, 0, 0, 0⟩ [0, 1]).state = CircuitState.OPEN ∧
    ((CircuitBreaker.record_failures
        ⟨⟨2, 30, 3⟩, CircuitState.CLOSED, 0, 0, 0⟩ [0, 1]).can_execute 1).1 = false := by
  have h := circuit_breaker_opens_after_threshold
    ⟨⟨2, 30, 3⟩, CircuitState.CLOSED, 0, 0, 0⟩ [0, 1] rfl rfl (by decide) (by decide)
  refine ⟨h.2.1, h.2.2 1 ?_⟩
  simp [CircuitBreaker.record_failures, CircuitBreaker.record_failure]

/-- C6: a breaker in OPEN allows execution exactly when
`now - last_failure_time >= recovery_timeout` (and then transitions to
HALF_OPEN); otherwise it is left unchanged; and a single `record_failure()`
in HALF_OPEN returns it to OPEN. -/
theorem circuit_breaker_open_recovery :
    (∀ (cb : CircuitBreaker) (now : Rat), cb.state = CircuitState.OPEN →
      ((cb.can_execute now).1 = true ↔
        cb.config.recovery_timeout ≤ now - cb.last_failure_time)) ∧
    (∀ (cb : CircuitBreaker) (now : Rat), cb.state = CircuitState.OPEN →
      cb.config.recovery_timeout ≤ now - cb.last_failure_time →
      (cb.can_execute now).2.state = CircuitState.HALF_OPEN) ∧
    (∀ (cb : CircuitBreaker) (now : Rat), cb.state = CircuitState.OPEN →
      ¬ cb.config.recovery_timeout ≤ now - cb.last_failure_time →
      (cb.can_execute now).2 = cb) ∧
    (∀ (cb : CircuitBreaker) (now : Rat), cb.state = CircuitState.HALF_OPEN →
      (cb.record_failure now).state = CircuitState.OPEN) := by
  refine ⟨?_, ?_, ?_, ?_⟩
  · intro cb now hs
    unfold CircuitBreaker.can_execute
    simp [hs]
    split <;> simp_all
  · intro cb now hs hle
    unfold CircuitBreaker.can_execute
    simp [hs, hle]
  · intro cb now hs hlt
    unfold CircuitBreaker.can_execute
    simp [hs, hlt]
  · intro cb now hs
    unfold CircuitBreaker.record_failure
    simp [hs]

/-- Witness for C6 at a concrete OPEN breaker with recovery timeout 30,
last failure at time 0, checked at time 30, and at a concrete HALF_OPEN
breaker failing at time 40. -/
theorem circuit_breaker_open_recovery_witness :
    ((CircuitBreaker.can_execute ⟨⟨5, 30, 3⟩, CircuitState.OPEN, 5, 0, 0⟩ 30).1 = true) ∧
    ((CircuitBreaker.can_execute ⟨⟨5, 30, 3⟩, CircuitState.OPEN, 5, 0, 0⟩ 30).2.state
        = CircuitState.HALF_OPEN) ∧
    ((CircuitBreaker.record_failure ⟨⟨5, 30, 3⟩, CircuitState.HALF_OPEN, 0, 0, 1⟩ 40).state
        = CircuitState.OPEN) := by
  refine ⟨?_, ?_, ?_⟩
  · exact (circuit_breaker_open_recovery.1 _ 30 rfl).mpr (by norm_num)
  · exact circuit_breaker_open_recovery.2.1 _ 30 rfl (by norm_num)
  · exact circuit_breaker_open_recovery.2.2.2 _ 40 rfl

/-- C7: with jitter disabled and nonnegative delay parameters, the retry
delay before attempt `i` is exactly `min max_delay (base_delay * exponential_base ^ i)`. -/
theorem calculate_delay_no_jitter (config : RetryConfig) (attempt : Nat) (jitterDraw : Rat)
    (hj : config.jitter = false)
    (hb : 0 ≤ config.base_delay) (he : 0 ≤ config.exponential_base)
    (hm : 0 ≤ config.max_delay) :
    calculate_delay attempt config jitterDraw =
      min config.max_delay (config.base_delay * config.exponential_base ^ attempt) := by
  unfold calculate_delay
  rw [hj]
  have h1 : 0 ≤ config.base_delay * config.exponential_base ^ attempt :=
    mul_nonneg hb (pow_nonneg he _)
  simp only [Bool.false_eq_true, if_false]
  rw [max_eq_right (le_min h1 hm), min_comm]

/-- Witness for C7 at the default retry configuration with jitter off and
attempt index 3 (delay 1 * 2 ^ 3 = 8, below the 60-second cap). -/
theorem calculate_delay_no_jitter_witness :
    calculate_delay 3 ⟨3, 1, 60, 2, false⟩ 0 = min 60 (1 * 2 ^ 3) :=
  calculate_delay_no_jitter ⟨3, 1, 60, 2, false⟩ 3 0 rfl (by norm_num) (by norm_num) (by norm_num)

/-! ## Rate limiting (src/api/rate_limiter.py) -/

/-- `RateLimitConfig` from src/api/rate_limiter.py. -/
structure RateLimitConfig where
  requests_per_minute : Nat := 60
  requests_per_hour : Nat := 1000
  burst_size : Nat := 10
deriving DecidableEq, Repr

/-- `TokenBucket` from src/api/rate_limiter.py.  `last_update` replaces the
wall-clock timestamp; every method takes `now : Rat` in place of
`time.time()`. -/
structure TokenBucket where
  capacity : Rat
  fill_rate : Rat
  tokens : Rat
  last_update : Rat
deriving DecidableEq, Repr

/-- `TokenBucket.__post_init__`: the bucket starts full at creation time. -/
def TokenBucket.create (capacity fill_rate now : Rat) : TokenBucket :=
  { capacity := capacity, fill_rate := fill_rate, tokens := capacity, last_update := now }

/-- `TokenBucket._refill`: add `elapsed * fill_rate` tokens, capped at capacity. -/
def TokenBucket.refill (b : TokenBucket) (now : Rat) : TokenBucket :=
  { b with tokens := min b.capacity (b.tokens + (now - b.last_update) * b.fill_rate),
           last_update := now }

/-- `TokenBucket.consume`: refill, then take `tokens` tokens if available. -/
def TokenBucket.consume (b : TokenBucket) (now : Rat) (tokens : Rat) : Bool × TokenBucket :=
  let b := b.refill now
  if tokens ≤ b.tokens then (true, { b with tokens := b.tokens - tokens })
  else (false, b)

/-- `TokenBucket.time_until_available`: refill, then report how long until
`tokens` tokens will be available.  Python divides by `fill_rate`; a zero
fill rate would raise `ZeroDivisionError` there, while rational division
yields 0, so callers relying on this branch need `fill_rate > 0`. -/
def TokenBucket.time_until_available (b : TokenBucket) (now : Rat) (tokens : Rat)
    : Rat × TokenBucket :=
  let b := b.refill now
  if tokens ≤ b.tokens then (0, b)
  else ((tokens - b.tokens) / b.fill_rate, b)

/-- `SlidingWindowCounter` from src/api/rate_limiter.py. -/
structure SlidingWindowCounter where
  window_size : Rat
  max_requests : Nat
  timestamps : List Rat := []
deriving DecidableEq, Repr

/-- `SlidingWindowCounter._clean_old`: drop timestamps at or before
`now - window_size` (Python keeps `ts > cutoff`). -/
def SlidingWindowCounter.clean_old (w : SlidingWindowCounter) (now : Rat)
    : SlidingWindowCounter :=
  { w with timestamps := w.timestamps.filter (fun ts => decide (now - w.window_size < ts)) }

/-- `SlidingWindowCounter.check_and_increment`: after cleaning, admit and
record the request iff the window is not yet full. -/
def SlidingWindowCounter.check_and_increment (w : SlidingWindowCounter) (now : Rat)
    : Bool × SlidingWindowCounter :=
  let w := w.clean_old now
  if w.timestamps.length < w.max_requests then
    (true, { w with timestamps := w.timestamps ++ [now] })
  else
    (false, w)

/-- `min(self.timestamps)` over the (nonempty in every reachable rejecting
state) timestamp list; 0 stands in for Python's `ValueError` on an empty
list, which can only be hit when `max_requests = 0`. -/
def SlidingWindowCounter.oldest (w : SlidingWindowCounter) : Rat :=
  w.timestamps.foldl min (w.timestamps.headD 0)

/-- `SlidingWindowCounter.time_until_available`: after cleaning, the time
until the oldest timestamp exits the window (0 if the window is not full). -/
def SlidingWindowCounter.time_until_available (w : SlidingWindowCounter) (now : Rat)
    : Rat × SlidingWindowCounter :=
  let w := w.clean_old now
  if w.timestamps.length < w.max_requests then (0, w)
  else (w.oldest + w.window_size - now, w)

/-- Which of the three gates of `RateLimiter.check` rejected. -/
inductive Gate where
  | bucket
  | minute
  | hour
deriving DecidableEq, Repr

/-- The payload of a `RateLimitExceededError` raised by `RateLimiter.check`
(message and `retry_after`), tagged with the rejecting gate. -/
structure Rejection where
  gate : Gate
  message : String
  retry_after : Rat
deriving DecidableEq, Repr

/-- `RateLimiter` from src/api/rate_limiter.py. -/
structure RateLimiter where
  config : RateLimitConfig
  bucket : TokenBucket
  minute_window : SlidingWindowCounter
  hour_window : SlidingWindowCounter
deriving DecidableEq, Repr

/-- `RateLimiter.__init__`: bucket capacity is the burst size, fill rate is
`requests_per_minute / 60` tokens per second, plus a 60-second and a
3600-second sliding window. -/
def RateLimiter.create (config : RateLimitConfig) (now : Rat) : RateLimiter :=
  { config := config
    bucket := TokenBucket.create (config.burst_size : Rat) ((config.requests_per_minute : Rat) / 60) now
    minute_window := { window_size := 60, max_requests := config.requests_per_minute }
    hour_window := { window_size := 3600, max_requests := config.requests_per_hour } }

/-- `RateLimiter.check`: token bucket, then 60-second window, then
3600-second window, in that order.  A `some` first component models the
raised `RateLimitExceededError` (equivalently the `False` return when
`raise_on_limit` is false; Python computes `retry_after`, and performs the
same mutations, in both cases).  The second component is the limiter after
all mutations performed by the call. -/
def RateLimiter.check (rl : RateLimiter) (now : Rat) : Option Rejection × RateLimiter :=
  let c1 := rl.bucket.consume now 1
  let rl1 := { rl with bucket := c1.2 }
  if c1.1 then
    let c2 := rl1.minute_window.check_and_increment now
    let rl2 := { rl1 with minute_window := c2.2 }
    if c2.1 then
      let c3 := rl2.hour_window.check_and_increment now
      let rl3 := { rl2 with hour_window := c3.2 }
      if c3.1 then
        (none, rl3)
      else
        let t3 := rl3.hour_window.time_until_available now
        (some { gate := Gate.hour
                message := "Rate limit exceeded: " ++ toString rl3.config.requests_per_hour ++ "/hour"
                retry_after := t3.1 },
         { rl3 with hour_window := t3.2 })
    else
      let t2 := rl2.minute_window.time_until_available now
      (some { gate := Gate.minute
              message := "Rate limit exceeded: " ++ toString rl2.config.requests_per_minute ++ "/minute"
              retry_after := t2.1 },
       { rl2 with minute_window := t2.2 })
  else
    let t1 := rl1.bucket.time_until_available now 1
    (some { gate := Gate.bucket, message := "Burst rate limit exceeded", retry_after := t1.1 },
     { rl1 with bucket := t1.2 })

/-- The payload of a `RateLimitExceededError` as surfaced by
`SessionRateLimiter.check` (message and `retry_after`). -/
structure RateLimitError where
  message : String
  retry_after : Rat
deriving DecidableEq, Repr

/-- `SessionRateLimiter` from src/api/rate_limiter.py; the
`session_limiters` dict becomes an association list. -/
structure SessionRateLimiter where
  per_session_config : RateLimitConfig
  global_config : RateLimitConfig
  session_limiters : List (String × RateLimiter)
  global_limiter : RateLimiter
deriving DecidableEq, Repr

/-- `SessionRateLimiter.__init__` with both configs given explicitly. -/
def SessionRateLimiter.create (perCfg globalCfg : RateLimitConfig) (now : Rat)
    : SessionRateLimiter :=
  { per_session_config := perCfg
    global_config := globalCfg
    session_limiters := []
    global_limiter := RateLimiter.create globalCfg now }

/-- Association-list store for `self.session_limiters[session_id] = limiter`. -/
def storeLimiter (ls : List (String × RateLimiter)) (sid : String) (l : RateLimiter)
    : List (String × RateLimiter) :=
  match ls with
  | [] => [(sid, l)]
  | (k, v) :: rest => if k = sid then (sid, l) :: rest else (k, v) :: storeLimiter rest sid l

/-- Association-list lookup for `self.session_limiters[session_id]`. -/
def findLimiter (ls : List (String × RateLimiter)) (sid : String) : Option RateLimiter :=
  match ls with
  | [] => none
  | (k, v) :: rest => if k = sid then some v else findLimiter rest sid

/-- `SessionRateLimiter.check`: evaluate the shared global limiter first
(with `raise_on_limit=False`); on a global rejection, surface
`max(global bucket wait, global minute-window wait)` — the hour window is
not consulted for the surfaced `retry_after`.  Otherwise evaluate (and
lazily create) the per-session limiter. -/
def SessionRateLimiter.check (srl : SessionRateLimiter) (sid : String) (now : Rat)
    : Option RateLimitError × SessionRateLimiter :=
  let g := srl.global_limiter.check now
  let srl1 := { srl with global_limiter := g.2 }
  if (g.1).isSome then
    let t1 := srl1.global_limiter.bucket.time_until_available now 1
    let g2 := { srl1.global_limiter with bucket := t1.2 }
    let t2 := g2.minute_window.time_until_available now
    let g3 := { g2 with minute_window := t2.2 }
    (some { message := "Global rate limit exceeded", retry_after := max t1.1 t2.1 },
     { srl1 with global_limiter := g3 })
  else
    let sl :=
      match findLimiter srl1.session_limiters sid with
      | some l => l
      | none => RateLimiter.create srl1.per_session_config now
    let s := sl.check now
    ((s.1).map (fun r => { message := r.message, retry_after := r.retry_after }),
     { srl1 with session_limiters := storeLimiter srl1.session_limiters sid s.2 })

/-! ### Rate-limiter lemmas -/

@[simp] theorem refill_capacity (b : TokenBucket) (now : Rat) :
    (b.refill now).capacity = b.capacity := rfl

@[simp] theorem refill_fill_rate (b : TokenBucket) (now : Rat) :
    (b.refill now).fill_rate = b.fill_rate := rfl

@[simp] theorem clean_old_max_requests (w : SlidingWindowCounter) (now : Rat) :
    (w.clean_old now).max_requests = w.max_requests := rfl

@[simp] theorem clean_old_window_size (w : SlidingWindowCounter) (now : Rat) :
    (w.clean_old now).window_size = w.window_size := rfl

theorem refill_refill (b : TokenBucket) (now : Rat) :
    (b.refill now).refill now = b.refill now := by
  simp only [TokenBucket.refill, sub_self, zero_mul, add_zero]
  rw [← min_assoc, min_self]

theorem clean_old_idem (w : SlidingWindowCounter) (now : Rat) :
    (w.clean_old now).clean_old now = w.clean_old now := by
  simp [SlidingWindowCounter.clean_old, List.filter_filter]

theorem consume_eq_true (b : TokenBucket) (now n : Rat)
    (h : n ≤ (b.refill now).tokens) :
    b.consume now n = (true, { b.refill now with tokens := (b.refill now).tokens - n }) := by
  simp only [TokenBucket.consume]
  rw [if_pos h]

theorem consume_eq_false (b : TokenBucket) (now n : Rat)
    (h : ¬ n ≤ (b.refill now).tokens) :
    b.consume now n = (false, b.refill now) := by
  simp only [TokenBucket.consume]
  rw [if_neg h]

theorem bucket_tua_after_reject (b : TokenBucket) (now n : Rat)
    (h : ¬ n ≤ (b.refill now).tokens) :
    (b.refill now).time_until_available now n
      = ((n - (b.refill now).tokens) / b.fill_rate, b.refill now) := by
  simp only [TokenBucket.time_until_available, refill_refill, refill_fill_rate]
  rw [if_neg h]

theorem cai_eq_true (w : SlidingWindowCounter) (now : Rat)
    (h : (w.clean_old now).timestamps.length < w.max_requests) :
    w.check_and_increment now
      = (true, { w.clean_old now with
                 timestamps := (w.clean_old now).timestamps ++ [now] }) := by
  simp only [SlidingWindowCounter.check_and_increment, clean_old_max_requests]
  rw [if_pos h]

theorem cai_eq_false (w : SlidingWindowCounter) (now : Rat)
    (h : ¬ (w.clean_old now).timestamps.length < w.max_requests) :
    w.check_and_increment now = (false, w.clean_old now) := by
  simp only [SlidingWindowCounter.check_and_increment, clean_old_max_requests]
  rw [if_neg h]

theorem swc_tua_after_reject (w : SlidingWindowCounter) (now : Rat)
    (h : ¬ (w.clean_old now).timestamps.length < w.max_requests) :
    (w.clean_old now).time_until_available now
      = ((w.clean_old now).oldest + w.window_size - now, w.clean_old now) := by
  simp only [SlidingWindowCounter.time_until_available, clean_old_idem,
    clean_old_max_requests, clean_old_window_size]
  rw [if_neg h]

/-- Full output of `RateLimiter.check` when the token bucket rejects. -/
theorem check_bucket_reject (rl : RateLimiter) (now : Rat)
    (h : ¬ 1 ≤ (rl.bucket.refill now).tokens) :
    rl.check now =
      (some { gate := Gate.bucket, message := "Burst rate limit exceeded",
              retry_after := (1 - (rl.bucket.refill now).tokens) / rl.bucket.fill_rate },
       { rl with bucket := rl.bucket.refill now }) := by
  simp only [RateLimiter.check, consume_eq_false rl.bucket now 1 h,
    bucket_tua_after_reject rl.bucket now 1 h]
  simp

/-- Full output of `RateLimiter.check` when the bucket admits but the
minute window rejects. -/
theorem check_minute_reject (rl : RateLimiter) (now : Rat)
    (h1 : 1 ≤ (rl.bucket.refill now).tokens)
    (h2 : ¬ (rl.minute_window.clean_old now).timestamps.length
            < rl.minute_window.max_requests) :
    rl.check now =
      (some { gate := Gate.minute,
              message := "Rate limit exceeded: "
                ++ toString rl.config.requests_per_minute ++ "/minute",
              retry_after := (rl.minute_window.clean_old now).oldest
                + rl.minute_window.window_size - now },
       { rl with bucket := { rl.bucket.refill now with
                             tokens := (rl.bucket.refill now).tokens - 1 },
                 minute_window := rl.minute_window.clean_old now }) := by
  simp only [RateLimiter.check, consume_eq_true rl.bucket now 1 h1,
    cai_eq_false rl.minute_window now h2,
    swc_tua_after_reject rl.minute_window now h2]
  simp

/-- Full output of `RateLimiter.check` when the bucket and minute window
admit but the hour window rejects. -/
theorem check_hour_reject (rl : RateLimiter) (now : Rat)
    (h1 : 1 ≤ (rl.bucket.refill now).tokens)
    (h2 : (rl.minute_window.clean_old now).timestamps.length
            < rl.minute_window.max_requests)
    (h3 : ¬ (rl.hour_window.clean_old now).timestamps.length
            < rl.hour_window.max_requests) :
    rl.check now =
      (some { gate := Gate.hour,
              message := "Rate limit exceeded: "
                ++ toString rl.config.requests_per_hour ++ "/hour",
              retry_after := (rl.hour_window.clean_old now).oldest
                + rl.hour_window.window_size - now },
       { rl with bucket := { rl.bucket.refill now with
                             tokens := (rl.bucket.refill now).tokens - 1 },
                 minute_window := { rl.minute_window.clean_old now with
                   timestamps := (rl.minute_window.clean_old now).timestamps ++ [now] },
                 hour_window := rl.hour_window.clean_old now }) := by
  simp only [RateLimiter.check, consume_eq_true rl.bucket now 1 h1,
    cai_eq_true rl.minute_window now h2,
    cai_eq_false rl.hour_window now h3,
    swc_tua_after_reject rl.hour_window now h3]
  simp

/-- Full output of `RateLimiter.check` when all three gates admit. -/
theorem check_allow (rl : RateLimiter) (now : Rat)
    (h1 : 1 ≤ (rl.bucket.refill now).tokens)
    (h2 : (rl.minute_window.clean_old now).timestamps.length
            < rl.minute_window.max_requests)
    (h3 : (rl.hour_window.clean_old now).timestamps.length
            < rl.hour_window.max_requests) :
    rl.check now =
      (none,
       { rl with bucket := { rl.bucket.refill now with
                             tokens := (rl.bucket.refill now).tokens - 1 },
                 minute_window := { rl.minute_window.clean_old now with
                   timestamps := (rl.minute_window.clean_old now).timestamps ++ [now] },
                 hour_window := { rl.hour_window.clean_old now with
                   timestamps := (rl.hour_window.clean_old now).timestamps ++ [now] } }) := by
  simp only [RateLimiter.check, consume_eq_true rl.bucket now 1 h1,
    cai_eq_true rl.minute_window now h2,
    cai_eq_true rl.hour_window now h3]
  simp

theorem tua_eq_avail (b : TokenBucket) (now n : Rat)
    (h : n ≤ (b.refill now).tokens) :
    b.time_until_available now n = (0, b.refill now) := by
  simp only [TokenBucket.time_until_available]
  rw [if_pos h]

theorem tua_eq_wait (b : TokenBucket) (now n : Rat)
    (h : ¬ n ≤ (b.refill now).tokens) :
    b.time_until_available now n
      = ((n - (b.refill now).tokens) / b.fill_rate, b.refill now) := by
  simp only [TokenBucket.time_until_available]
  rw [if_neg h]
  simp only [refill_fill_rate]

/-- C4 (amended): the admission check evaluates the token bucket, the
60-second window, and the 3600-second window in that order, each gate
independently able to reject; each rejection carries the rejecting gate's
own `retry_after` (bucket: tokens needed over fill rate; window: time
until the oldest timestamp exits the window); and on a global-limit
rejection `SessionRateLimiter.check` surfaces the maximum of only the
global bucket wait and the global minute-window wait (the hour window's
wait is not consulted). -/
theorem admission_gates_and_retry_after :
    (∀ (rl : RateLimiter) (now : Rat), ¬ 1 ≤ (rl.bucket.refill now).tokens →
      (rl.check now).1 = some { gate := Gate.bucket
                                message := "Burst rate limit exceeded"
                                retry_after := (1 - (rl.bucket.refill now).tokens)
                                  / rl.bucket.fill_rate }) ∧
    (∀ (rl : RateLimiter) (now : Rat), 1 ≤ (rl.bucket.refill now).tokens →
      ¬ (rl.minute_window.clean_old now).timestamps.length < rl.minute_window.max_requests →
      (rl.check now).1 = some { gate := Gate.minute
                                message := "Rate limit exceeded: "
                                  ++ toString rl.config.requests_per_minute ++ "/minute"
                                retry_after := (rl.minute_window.clean_old now).oldest
                                  + rl.minute_window.window_size - now }) ∧
    (∀ (rl : RateLimiter) (now : Rat), 1 ≤ (rl.bucket.refill now).tokens →
      (rl.minute_window.clean_old now).timestamps.length < rl.minute_window.max_requests →
      ¬ (rl.hour_window.clean_old now).timestamps.length < rl.hour_window.max_requests →
      (rl.check now).1 = some { gate := Gate.hour
                                message := "Rate limit exceeded: "
                                  ++ toString rl.config.requests_per_hour ++ "/hour"
                                retry_after := (rl.hour_window.clean_old now).oldest
                                  + rl.hour_window.window_size - now }) ∧
    (∀ (rl : RateLimiter) (now : Rat), 1 ≤ (rl.bucket.refill now).tokens →
      (rl.minute_window.clean_old now).timestamps.length < rl.minute_window.max_requests →
      (rl.hour_window.clean_old now).timestamps.length < rl.hour_window.max_requests →
      (rl.check now).1 = none) ∧
    (∀ (srl : SessionRateLimiter) (sid : String) (now : Rat),
      ((srl.global_limiter.check now).1).isSome = true →
      (srl.check sid now).1 = some { message := "Global rate limit exceeded"
                                     retry_after :=
                                       max ((srl.global_limiter.check now).2.bucket.time_until_available
                                             now 1).1
                                         ((srl.global_limiter.check now).2.minute_window.time_until_available
                                             now).1 }) := by
  refine ⟨?_, ?_, ?_, ?_, ?_⟩
  · intro rl now h
    rw [check_bucket_reject rl now h]
  · intro rl now h1 h2
    rw [check_minute_reject rl now h1 h2]
  · intro rl now h1 h2 h3
    rw [check_hour_reject rl now h1 h2 h3]
  · intro rl now h1 h2 h3
    rw [check_allow rl now h1 h2 h3]
  · intro srl sid now h
    simp only [SessionRateLimiter.check]
    rw [if_pos h]

/-- Witness for C4 at a limiter whose burst size is 0, so the token bucket
rejects the very first request at time 0 with `retry_after = 1` second
(1 token needed at fill rate 1 token per second). -/
theorem admission_gates_and_retry_after_witness :
    ((RateLimiter.create ⟨60, 1000, 0⟩ 0).check 0).1
      = some { gate := Gate.bucket, message := "Burst rate limit exceeded",
               retry_after := 1 } := by
  have h := admission_gates_and_retry_after.1 (RateLimiter.create ⟨60, 1000, 0⟩ 0) 0
    (by norm_num [RateLimiter.create, TokenBucket.create, TokenBucket.refill])
  rw [h]
  norm_num [RateLimiter.create, TokenBucket.create, TokenBucket.refill]

/-- Counterexample for C4 as stated: with a global config of 2
requests/minute, 1 request/hour and burst 5, one admitted request at
time 0 followed by a request at time 120 is rejected by the global hour
window, whose implied wait is 3480 seconds; but the surfaced
`retry_after` is `max(bucket wait, minute wait) = 0`, not the maximum
implied wait of 3480. -/
theorem session_retry_after_ignores_hour_counterexample :
    ((((SessionRateLimiter.create ⟨30, 500, 5⟩ ⟨2, 1, 5⟩ 0).check "s" 0).2.check "s" 120).1
      = some { message := "Global rate limit exceeded", retry_after := 0 }) ∧
    (((((SessionRateLimiter.create ⟨30, 500, 5⟩ ⟨2, 1, 5⟩ 0).check "s" 0).2.global_limiter.hour_window.clean_old
          120).oldest + 3600 - 120 : Rat) = 3480) ∧
    ((0 : Rat) ≠ 3480) := by
  refine ⟨?_, ?_, by norm_num⟩
  · norm_num [SessionRateLimiter.create, SessionRateLimiter.check, RateLimiter.create,
      RateLimiter.check, TokenBucket.create, TokenBucket.consume, TokenBucket.refill,
      TokenBucket.time_until_available, SlidingWindowCounter.check_and_increment,
      SlidingWindowCounter.clean_old, SlidingWindowCounter.time_until_available,
      SlidingWindowCounter.oldest, findLimiter, storeLimiter]
  · norm_num [SessionRateLimiter.create, SessionRateLimiter.check, RateLimiter.create,
      RateLimiter.check, TokenBucket.create, TokenBucket.consume, TokenBucket.refill,
      TokenBucket.time_until_available, SlidingWindowCounter.check_and_increment,
      SlidingWindowCounter.clean_old, SlidingWindowCounter.time_until_available,
      SlidingWindowCounter.oldest, findLimiter, storeLimiter]

/-- C9: a check rejected by the minute window has already consumed a
bucket token; a check rejected by the hour window has additionally
recorded a timestamp in the minute window.  The rejected request thus
still depletes burst and minute capacity. -/
theorem rejected_check_still_consumes :
    (∀ (rl : RateLimiter) (now : Rat),
      1 ≤ (rl.bucket.refill now).tokens →
      ¬ (rl.minute_window.clean_old now).timestamps.length < rl.minute_window.max_requests →
      ((rl.check now).1.map Rejection.gate = some Gate.minute ∧
       (rl.check now).2.bucket.tokens = (rl.bucket.refill now).tokens - 1)) ∧
    (∀ (rl : RateLimiter) (now : Rat),
      1 ≤ (rl.bucket.refill now).tokens →
      (rl.minute_window.clean_old now).timestamps.length < rl.minute_window.max_requests →
      ¬ (rl.hour_window.clean_old now).timestamps.length < rl.hour_window.max_requests →
      ((rl.check now).1.map Rejection.gate = some Gate.hour ∧
       (rl.check now).2.bucket.tokens = (rl.bucket.refill now).tokens - 1 ∧
       (rl.check now).2.minute_window.timestamps
         = (rl.minute_window.clean_old now).timestamps ++ [now])) := by
  constructor
  · intro rl now h1 h2
    rw [check_minute_reject rl now h1 h2]
    exact ⟨rfl, rfl⟩
  · intro rl now h1 h2 h3
    rw [check_hour_reject rl now h1 h2 h3]
    exact ⟨rfl, rfl, rfl⟩

/-- Witness for C9: with 1 request/minute and burst 5, the second check at
time 0 is rejected by the minute window yet still consumed a bucket token. -/
theorem rejected_check_still_consumes_witness :
    ((((RateLimiter.create ⟨1, 1000, 5⟩ 0).check 0).2.check 0).1.map Rejection.gate
        = some Gate.minute) ∧
    ((((RateLimiter.create ⟨1, 1000, 5⟩ 0).check 0).2.check 0).2.bucket.tokens
        = ((((RateLimiter.create ⟨1, 1000, 5⟩ 0).check 0).2.bucket.refill 0).tokens - 1)) := by
  exact rejected_check_still_consumes.1 _ 0
    (by norm_num [RateLimiter.create, RateLimiter.check, TokenBucket.create,
      TokenBucket.consume, TokenBucket.refill, SlidingWindowCounter.check_and_increment,
      SlidingWindowCounter.clean_old])
    (by norm_num [RateLimiter.create, RateLimiter.check, TokenBucket.create,
      TokenBucket.consume, TokenBucket.refill, SlidingWindowCounter.check_and_increment,
      SlidingWindowCounter.clean_old])

/-! ### Token-bucket call traces (for the bucket invariant) -/

/-- One client call on a `TokenBucket`: `consume(n)` or
`time_until_available(n)`. -/
inductive BucketOp where
  | consumeOp (n : Rat)
  | availOp (n : Rat)
deriving DecidableEq, Repr

/-- The `tokens` argument of a call. -/
def BucketOp.arg : BucketOp → Rat
  | BucketOp.consumeOp n => n
  | BucketOp.availOp n => n

/-- The bucket state after one call issued at time `now`. -/
def TokenBucket.applyOp (b : TokenBucket) (now : Rat) (op : BucketOp) : TokenBucket :=
  match op with
  | BucketOp.consumeOp n => (b.consume now n).2
  | BucketOp.availOp n => (b.time_until_available now n).2

/-- The bucket state after a sequence of timestamped calls. -/
def TokenBucket.runOps (b : TokenBucket) (ops : List (Rat × BucketOp)) : TokenBucket :=
  ops.foldl (fun b p => b.applyOp p.1 p.2) b

theorem runOps_nil (b : TokenBucket) : b.runOps [] = b := rfl

theorem runOps_cons (b : TokenBucket) (p : Rat × BucketOp) (ps : List (Rat × BucketOp)) :
    b.runOps (p :: ps) = (b.applyOp p.1 p.2).runOps ps := rfl

theorem applyOp_fields (b : TokenBucket) (now : Rat) (op : BucketOp) :
    (b.applyOp now op).capacity = b.capacity ∧
    (b.applyOp now op).fill_rate = b.fill_rate ∧
    (b.applyOp now op).last_update = now := by
  cases op with
  | consumeOp n =>
      by_cases hc : n ≤ (b.refill now).tokens
      · rw [TokenBucket.applyOp, consume_eq_true b now n hc]
        exact ⟨rfl, rfl, rfl⟩
      · rw [TokenBucket.applyOp, consume_eq_false b now n hc]
        exact ⟨rfl, rfl, rfl⟩
  | availOp n =>
      by_cases hc : n ≤ (b.refill now).tokens
      · rw [TokenBucket.applyOp, tua_eq_avail b now n hc]
        exact ⟨rfl, rfl, rfl⟩
      · rw [TokenBucket.applyOp, tua_eq_wait b now n hc]
        exact ⟨rfl, rfl, rfl⟩

theorem refill_bounds (b : TokenBucket) (now : Rat) (hfr : 0 ≤ b.fill_rate)
    (h0 : 0 ≤ b.tokens) (hc : b.tokens ≤ b.capacity) (hnow : b.last_update ≤ now) :
    0 ≤ (b.refill now).tokens ∧ (b.refill now).tokens ≤ b.capacity := by
  unfold TokenBucket.refill
  constructor
  · apply le_min (h0.trans hc)
    have h1 : 0 ≤ (now - b.last_update) * b.fill_rate :=
      mul_nonneg (by linarith) hfr
    linarith
  · exact min_le_left _ _

theorem applyOp_bounds (b : TokenBucket) (now : Rat) (op : BucketOp)
    (hfr : 0 ≤ b.fill_rate) (h0 : 0 ≤ b.tokens) (hc : b.tokens ≤ b.capacity)
    (hnow : b.last_update ≤ now) (harg : 0 ≤ op.arg) :
    0 ≤ (b.applyOp now op).tokens ∧ (b.applyOp now op).tokens ≤ b.capacity := by
  have hr := refill_bounds b now hfr h0 hc hnow
  cases op with
  | consumeOp n =>
      by_cases hcn : n ≤ (b.refill now).tokens
      · rw [TokenBucket.applyOp, consume_eq_true b now n hcn]
        have hn : 0 ≤ n := harg
        constructor
        · simpa using sub_nonneg.mpr hcn
        · have := hr.2
          simp only
          linarith
      · rw [TokenBucket.applyOp, consume_eq_false b now n hcn]
        exact hr
  | availOp n =>
      by_cases hcn : n ≤ (b.refill now).tokens
      · rw [TokenBucket.applyOp, tua_eq_avail b now n hcn]
        exact hr
      · rw [TokenBucket.applyOp, tua_eq_wait b now n hcn]
        exact hr

theorem runOps_bounds (ops : List (Rat × BucketOp)) (b : TokenBucket)
    (hfr : 0 ≤ b.fill_rate) (h0 : 0 ≤ b.tokens) (hc : b.tokens ≤ b.capacity)
    (hchain : List.Chain (fun a c => a ≤ c) b.last_update (ops.map Prod.fst))
    (hargs : ∀ p ∈ ops, 0 ≤ (p.2).arg) :
    0 ≤ (b.runOps ops).tokens ∧ (b.runOps ops).tokens ≤ b.capacity := by
  induction ops generalizing b with
  | nil => exact ⟨h0, hc⟩
  | cons p ps ih =>
      obtain ⟨t, op⟩ := p
      rw [runOps_cons]
      have hf := applyOp_fields b t op
      rw [List.map_cons, List.chain_cons] at hchain
      have hb := applyOp_bounds b t op hfr h0 hc hchain.1
        (hargs (t, op) (List.mem_cons_self _ _))
      have hrec := ih (b.applyOp t op)
        (by rw [hf.2.1]; exact hfr)
        hb.1
        (by rw [hf.1]; exact hb.2)
        (by rw [hf.2.2]; exact hchain.2)
        (fun q hq => hargs q (List.mem_cons_of_mem _ hq))
      rw [hf.1] at hrec
      exact hrec

/-- C10: a bucket constructed full with nonnegative capacity and fill rate
keeps `0 ≤ tokens ≤ capacity` across any sequence of `consume` /
`time_until_available` calls with nonnegative arguments under a
non-decreasing clock; and `consume(n)` succeeds iff the post-refill count
is at least `n`, in which case it subtracts exactly `n`, otherwise it
leaves the post-refill count unchanged. -/
theorem token_bucket_invariant (c fr t0 : Rat) (hc : 0 ≤ c) (hfr : 0 ≤ fr)
    (ops : List (Rat × BucketOp))
    (hchain : List.Chain (fun a b => a ≤ b) t0 (ops.map Prod.fst))
    (hargs : ∀ p ∈ ops, 0 ≤ (p.2).arg) :
    (0 ≤ ((TokenBucket.create c fr t0).runOps ops).tokens ∧
      ((TokenBucket.create c fr t0).runOps ops).tokens ≤ c) ∧
    (∀ (b : TokenBucket) (now n : Rat),
      ((b.consume now n).1 = true ↔ n ≤ (b.refill now).tokens) ∧
      ((b.consume now n).1 = true →
        (b.consume now n).2.tokens = (b.refill now).tokens - n) ∧
      ((b.consume now n).1 = false → (b.consume now n).2 = b.refill now)) := by
  constructor
  · exact runOps_bounds ops (TokenBucket.create c fr t0) hfr hc (le_refl c) hchain hargs
  · intro b now n
    by_cases hcn : n ≤ (b.refill now).tokens
    · rw [consume_eq_true b now n hcn]
      exact ⟨by simp [hcn], fun _ => rfl, by simp⟩
    · rw [consume_eq_false b now n hcn]
      exact ⟨by simp [hcn], by simp, fun _ => rfl⟩

/-- Witness for C10: capacity 10, fill rate 1, created at time 0, with
`consume(10)` at time 0, `consume(1)` at time 1 and
`time_until_available(1)` at time 2. -/
theorem token_bucket_invariant_witness :
    0 ≤ ((TokenBucket.create 10 1 0).runOps
        [(0, BucketOp.consumeOp 10), (1, BucketOp.consumeOp 1), (2, BucketOp.availOp 1)]).tokens ∧
    ((TokenBucket.create 10 1 0).runOps
        [(0, BucketOp.consumeOp 10), (1, BucketOp.consumeOp 1), (2, BucketOp.availOp 1)]).tokens ≤ 10 :=
  (token_bucket_invariant 10 1 0 (by norm_num) (by norm_num) _
    (by norm_num [List.chain_cons])
    (by intro p hp; fin_cases hp <;> norm_num [BucketOp.arg])).1

/-! ## Deliberation data model (src/models) -/

/-- `Component` from src/models/proposal.py. -/
structure Component where
  name : String
  type : String
  technology : String
  description : String
  dependencies : List String := []
deriving DecidableEq, Repr

/-- `TradeOff` from src/models/proposal.py. -/
structure TradeOff where
  aspect : String
  choice : String
  rationale : String
  alternatives : List String := []
deriving DecidableEq, Repr

/-- `Risk` from src/models/proposal.py. -/
structure Risk where
  category : String
  severity : String
  description : String
  mitigation : String
  likelihood : String := "medium"
deriving DecidableEq, Repr

/-- `ArchitectureProposal` from src/models/proposal.py (confidence in
[0, 1] modelled as a rational). -/
structure ArchitectureProposal where
  title : String
  summary : String
  approach : String
  components : List Component := []
  trade_offs : List TradeOff := []
  risks : List Risk := []
  confidence : Rat
  uncertainties : List String := []
  mermaid_diagram : Option String := none
  clarification_needed : Option String := none
deriving DecidableEq, Repr

/-- `Critique` from src/models/proposal.py. -/
structure Critique where
  target_proposal : String
  strengths : List String := []
  weaknesses : List String := []
  concerns : List String := []
  suggestions : List String := []
  agreement_level : Rat
deriving DecidableEq, Repr

/-- `AuditResult` from src/models/proposal.py. -/
structure AuditResult where
  preferred_approach : String
  preference_rationale : String
  risk_matrix : List Risk := []
  integration_concerns : List String := []
  security_issues : List String := []
  scalability_assessment : String
  consensus_possible : Bool
  synthesis_recommendation : Option String := none
  clarification_needed : Option String := none
deriving DecidableEq, Repr

/-- `Constraint` from src/models/context.py. -/
structure Constraint where
  type : String
  description : String
  severity : String := "hard"
  value : Option String := none
deriving DecidableEq, Repr

/-- `SystemContext` from src/models/context.py, restricted to the
`constraints` field — the only field the embedded functions read (the
remaining fields only feed prompt text, which is out of scope). -/
structure SystemContext where
  constraints : List Constraint := []
deriving DecidableEq, Repr

/-- `ArchitectureDecisionRecord` from src/models/state.py, with the
`datetime` date as a rational timestamp. -/
structure ArchitectureDecisionRecord where
  title : String
  status : String := "proposed"
  date : Rat
  decision : String
  rationale : String
  context : String
  constraints : List String := []
  majority_opinion : ArchitectureProposal
  minority_report : Option String := none
  alternatives_considered : List String := []
  positive_consequences : List String := []
  negative_consequences : List String := []
  risks : List String := []
  mermaid_diagram : Option String := none
  consensus_level : Rat
  rounds_taken : Nat
deriving DecidableEq, Repr

/-- Modelled from the spec: `ConversationTurn` (turn id, question,
resulting DecisionRecord appended to a Session's history on each
completed turn).  The class is imported and used by src/api/handlers.py
but its definition is absent from src/models/state.py in the reviewed
tree. -/
structure ConversationTurn where
  turn_id : Nat
  question : String
  adr : ArchitectureDecisionRecord
deriving DecidableEq, Repr

/-- `GraphState` from src/models/state.py, restricted to the fields the
embedded functions read or write (model-override strings, the interrupt
record and the observability message log are omitted).  The fields
`architect_refined_proposal`, `engineer_refined_proposal`,
`architect_critique_2` and `engineer_critique_2` are written and read by
src/graph/nodes.py, and `conversation_turns`, `is_follow_up`,
`follow_up_context` by src/api/handlers.py and src/graph/graph.py, even
though src/models/state.py does not declare them; they are included here
as those call sites use them, `conversation_turns` being modelled from
the spec. -/
structure GraphState where
  session_id : String
  user_question : String
  system_context : Option SystemContext := none
  architect_proposal : Option ArchitectureProposal := none
  engineer_proposal : Option ArchitectureProposal := none
  architect_critique : Option Critique := none
  engineer_critique : Option Critique := none
  architect_refined_proposal : Option ArchitectureProposal := none
  engineer_refined_proposal : Option ArchitectureProposal := none
  architect_critique_2 : Option Critique := none
  engineer_critique_2 : Option Critique := none
  audit_result : Option AuditResult := none
  consensus_reached : Bool := false
  round_number : Nat := 0
  max_rounds : Nat := 3
  final_adr : Option ArchitectureDecisionRecord := none
  current_phase : String := "start"
  error : Option String := none
  conversation_turns : List ConversationTurn := []
  is_follow_up : Bool := false
  follow_up_context : Option String := none
deriving DecidableEq, Repr

/-- Python truthiness of an `Optional[str]`: `None` and `""` are falsy. -/
def truthyStr : Option String → Bool
  | none => false
  | some s => decide (s ≠ "")

/-- Python `', '.join(xs)`. -/
def joinComma (xs : List String) : String := String.intercalate ", " xs

/-- Python f-string rendering of an `Optional[str]` (`None` prints as
"None"). -/
def optStr : Option String → String
  | none => "None"
  | some s => s

/-! ## Graph nodes and edges (src/graph) -/

/-- `ideation_node` (src/graph/nodes.py lines 62-212) composed with the
LangGraph merge of the keys it returns.  The two structured generation
calls are abstracted as `Except` results (a role whose fallback chain is
exhausted yields `Except.error`), gathered with
`return_exceptions=True`.  If both fail the node re-raises the first
error, which the surrounding handler turns into phase "error" with
message "Ideation phase failed: <first error>" (the proposal keys are not
in that update, so they stay unchanged); otherwise the node stores the
successful proposals (`None` for a failed side) and phase
"ideation_complete".  History messages, interrupts and usage metrics are
omitted. -/
def ideation_step (s : GraphState)
    (archRes engRes : Except String ArchitectureProposal) : GraphState :=
  match archRes, engRes with
  | Except.error e1, Except.error _ =>
      { s with current_phase := "error", error := some ("Ideation phase failed: " ++ e1) }
  | _, _ =>
      { s with architect_proposal := archRes.toOption
               engineer_proposal := engRes.toOption
               current_phase := "ideation_complete" }

/-- `route_after_ideation` from src/graph/edges.py lines 22-35 (Python
truthiness of `state.error`). -/
def route_after_ideation (s : GraphState) : String :=
  if truthyStr s.error || (s.current_phase == "error") then "end" else "cross_critique"

/-- `cross_critique_node` (src/graph/nodes.py lines 215-313): raises
unless both proposals exist, then runs both critique calls concurrently
(`asyncio.gather` without `return_exceptions`, so a failing call
propagates — the architect's first in this deterministic model).  Prompt
construction and history messages are omitted; the critique results are
abstracted as `Except` inputs. -/
def cross_critique_node (s : GraphState)
    (acRes ecRes : Except String Critique) : Except String GraphState :=
  if s.architect_proposal.isNone || s.engineer_proposal.isNone then
    Except.error "Both proposals must exist for cross-critique"
  else
    match acRes, ecRes with
    | Except.ok ac, Except.ok ec =>
        Except.ok { s with architect_critique := some ac
                           engineer_critique := some ec
                           current_phase := "cross_critique_complete" }
    | Except.error e, _ => Except.error e
    | _, Except.error e => Except.error e

/-- The state update returned by `audit_node` (src/graph/nodes.py lines
635-642): store the audit result, copy `consensus_possible` into
`consensus_reached` and increment `round_number`.  The auditor call is
abstracted as the given `AuditResult`. -/
def audit_update (s : GraphState) (audit : AuditResult) : GraphState :=
  { s with audit_result := some audit
           consensus_reached := audit.consensus_possible
           current_phase := "audit_complete"
           round_number := s.round_number + 1 }

/-- `route_after_audit` from src/graph/edges.py lines 50-74. -/
def route_after_audit (s : GraphState) : String :=
  if s.consensus_reached then "convergence"
  else if s.max_rounds ≤ s.round_number then "escalate"
  else "ideation"

/-- The phases visited in one full round of the wired graph
(src/graph/graph.py `create_graph`: ideation → cross_critique →
refinement → cross_critique_2 → audit). -/
def roundPhases : List String :=
  ["ideation", "cross_critique", "refinement", "cross_critique_2", "audit"]

/-- The audit/routing loop of the compiled graph, assuming every
intermediate agent call succeeds: each iteration runs one full round,
applies `audit_update` with that round's `AuditResult` (given by
`auditOf` as a function of the pre-audit round number), then follows
`route_after_audit`; "convergence" and "escalate" terminate.  Returns
the visited phase list and the terminal routing target; `fuel` bounds
the number of rounds. -/
def engineLoop (auditOf : Nat → AuditResult) : Nat → GraphState → List String × String
  | 0, _ => ([], "out_of_fuel")
  | fuel + 1, s =>
      let s1 := audit_update s (auditOf s.round_number)
      let r := route_after_audit s1
      if r = "ideation" then
        let rest := engineLoop auditOf fuel s1
        (roundPhases ++ rest.1, rest.2)
      else
        (roundPhases, r)

/-- The state update returned by `convergence_node`. -/
structure ConvergenceUpdate where
  final_adr : ArchitectureDecisionRecord
  current_phase : String
deriving DecidableEq, Repr

/-- `convergence_node` (src/graph/nodes.py lines 645-727), with
`datetime.now()` passed as `now`.  Guard: proposals and audit result must
exist (the ValueError of line 654); the two first-round critiques are
dereferenced unconditionally (lines 662/669 and 681-683), a missing one
raising AttributeError in Python, modelled as an error value.  Majority
selection follows `preferred_approach`: "architect" and "engineer" pick
that role's original proposal, any other value takes the hybrid branch,
which prefers the architect's original proposal when its confidence is
greater than or equal to the engineer's.  History messages are omitted. -/
def convergence_node (s : GraphState) (now : Rat) : Except String ConvergenceUpdate :=
  match s.architect_proposal, s.engineer_proposal, s.audit_result with
  | some ap, some ep, some audit =>
      match s.architect_critique, s.engineer_critique with
      | some ac, some ec =>
          let majority_minority :=
            if audit.preferred_approach = "architect" then
              (ap, "The Engineer proposed: " ++ ep.title ++ "\n" ++ ep.summary ++ "\n\n"
                ++ "Key differences: " ++ joinComma (ec.concerns.take 3))
            else if audit.preferred_approach = "engineer" then
              (ep, "The Architect proposed: " ++ ap.title ++ "\n" ++ ap.summary ++ "\n\n"
                ++ "Key differences: " ++ joinComma (ac.concerns.take 3))
            else if ep.confidence ≤ ap.confidence then
              (ap, "The Engineer's proposal was partially incorporated. "
                ++ optStr audit.synthesis_recommendation)
            else
              (ep, "The Architect's proposal was partially incorporated. "
                ++ optStr audit.synthesis_recommendation)
          let majority_proposal := majority_minority.1
          let minority_report := majority_minority.2
          let avg_agreement := (ac.agreement_level + ec.agreement_level) / 2
          let consensus_level :=
            if s.consensus_reached then avg_agreement else avg_agreement * (1 / 2)
          Except.ok
            { final_adr :=
                { title := "ADR: " ++ majority_proposal.title
                  status := "proposed"
                  date := now
                  decision := majority_proposal.summary
                  rationale := audit.preference_rationale
                  context := s.user_question
                  constraints :=
                    (match s.system_context with
                     | some sc => sc.constraints.map (fun c => c.description)
                     | none => [])
                  majority_opinion := majority_proposal
                  minority_report := some minority_report
                  alternatives_considered := [ap.approach, ep.approach]
                  positive_consequences :=
                    (majority_proposal.trade_offs.take 3).map (fun t => t.rationale)
                  negative_consequences := audit.integration_concerns.take 3
                  risks := (audit.risk_matrix.take 5).map (fun r => r.description)
                  mermaid_diagram := majority_proposal.mermaid_diagram
                  consensus_level := consensus_level
                  rounds_taken := s.round_number }
              current_phase := "complete" }
      | _, _ => Except.error "AttributeError: missing critique in convergence"
  | _, _, _ => Except.error "Proposals and audit result must exist for convergence"

/-- The claim's reading of "the two latest agreement_levels": the
second-round critiques when present, else the first-round ones — the
`x_critique_2 or x_critique` pattern that audit_node (lines 551-552) and
escalate_node use for "most recent". -/
def latestAgreementAvg (s : GraphState) : Option Rat :=
  match (match s.architect_critique_2 with
         | some c => some c
         | none => s.architect_critique),
        (match s.engineer_critique_2 with
         | some c => some c
         | none => s.engineer_critique) with
  | some ac, some ec => some ((ac.agreement_level + ec.agreement_level) / 2)
  | _, _ => none

/-! ### Concrete fixtures for witnesses and counterexamples -/

/-- A minimal proposal fixture. -/
def sampleProposal (t : String) (conf : Rat) : ArchitectureProposal :=
  { title := t, summary := t ++ " summary", approach := t ++ " approach", confidence := conf }

/-- A minimal critique fixture. -/
def sampleCritique (t : String) (agree : Rat) : Critique :=
  { target_proposal := t, agreement_level := agree }

/-- A minimal audit-result fixture preferring the architect. -/
def sampleAudit (consensus : Bool) : AuditResult :=
  { preferred_approach := "architect", preference_rationale := "rationale"
    scalability_assessment := "ok", consensus_possible := consensus }

/-- A minimal fresh graph state fixture. -/
def sampleState : GraphState := { session_id := "s1", user_question := "How to scale?" }

/-- A state as reached by CONVERGENCE after one full round: first-round
agreement levels 2/5 and 3/5, second-round (latest) levels 9/10 and 9/10,
audit preferring the architect with consensus possible. -/
def cexConvState : GraphState :=
  { session_id := "s1", user_question := "How to scale?"
    architect_proposal := some (sampleProposal "A" (4/5))
    engineer_proposal := some (sampleProposal "E" (3/5))
    architect_critique := some (sampleCritique "E" (2/5))
    engineer_critique := some (sampleCritique "A" (3/5))
    architect_critique_2 := some (sampleCritique "E" (9/10))
    engineer_critique_2 := some (sampleCritique "A" (9/10))
    audit_result := some (sampleAudit true)
    consensus_reached := true
    round_number := 1 }

/-! ### Theorems about the deliberation graph -/

/-- C1 (amended): when the proposals, both first-round critiques and the
audit result are present, CONVERGENCE succeeds; the majority proposal is
the role named by `preferred_approach` ("hybrid" — in fact any other
value — picks the higher-confidence proposal, ties to the architect);
and `consensus_level` is the average of the two FIRST-round
agreement_levels (fields `architect_critique` / `engineer_critique`, not
the latest critiques), halved when `consensus_reached` is false. -/
theorem convergence_majority_and_consensus (s : GraphState) (now : Rat)
    (ap ep : ArchitectureProposal) (ac ec : Critique) (audit : AuditResult)
    (hap : s.architect_proposal = some ap) (hep : s.engineer_proposal = some ep)
    (hac : s.architect_critique = some ac) (hec : s.engineer_critique = some ec)
    (haud : s.audit_result = some audit) :
    ∃ upd, convergence_node s now = Except.ok upd ∧
      upd.final_adr.majority_opinion =
        (if audit.preferred_approach = "architect" then ap
         else if audit.preferred_approach = "engineer" then ep
         else if ep.confidence ≤ ap.confidence then ap else ep) ∧
      upd.final_adr.consensus_level =
        (if s.consensus_reached
         then (ac.agreement_level + ec.agreement_level) / 2
         else (ac.agreement_level + ec.agreement_level) / 2 * (1 / 2)) := by
  simp only [convergence_node, hap, hep, hac, hec, haud]
  refine ⟨_, rfl, ?_, ?_⟩
  · split_ifs <;> rfl
  · split_ifs <;> rfl

/-- Witness for C1 at the concrete convergence state: the audit prefers
"architect", so the architect's proposal is the majority opinion and the
consensus level is the first-round average (2/5 + 3/5) / 2 = 1/2. -/
theorem convergence_majority_and_consensus_witness :
    ∃ upd, convergence_node cexConvState 0 = Except.ok upd ∧
      upd.final_adr.majority_opinion = sampleProposal "A" (4/5) ∧
      upd.final_adr.consensus_level = (2/5 + 3/5 : Rat) / 2 := by
  obtain ⟨upd, h1, h2, h3⟩ :=
    convergence_majority_and_consensus cexConvState 0
      (sampleProposal "A" (4/5)) (sampleProposal "E" (3/5))
      (sampleCritique "E" (2/5)) (sampleCritique "A" (3/5)) (sampleAudit true)
      rfl rfl rfl rfl rfl
  refine ⟨upd, h1, ?_, ?_⟩
  · rw [h2]
    norm_num [sampleAudit]
  · rw [h3]
    norm_num [cexConvState, sampleCritique]

/-- Counterexample for C1 as stated: with first-round agreement levels
2/5 and 3/5 and second-round (latest) levels 9/10 and 9/10, consensus
reached, the produced consensus_level is 1/2 — the first-round average —
while the average of the latest agreement levels is 9/10. -/
theorem convergence_not_latest_counterexample :
    ((convergence_node cexConvState 0).map (fun u => u.final_adr.consensus_level)
        = Except.ok (1/2 : Rat)) ∧
    latestAgreementAvg cexConvState = some (9/10 : Rat) ∧
    ((1/2 : Rat) ≠ 9/10) := by
  refine ⟨?_, ?_, by norm_num⟩
  · norm_num [convergence_node, cexConvState, sampleProposal, sampleCritique, sampleAudit,
      joinComma, optStr, Except.map]
  · norm_num [latestAgreementAvg, cexConvState, sampleCritique]

/-- C2 (amended): if exactly one ideation role fails, ideation completes
with the surviving proposal and routing selects "cross_critique", but
`cross_critique_node` then rejects the state ("Both proposals must exist
for cross-critique") whatever the critique calls would return, so the
engine does not actually critique the lone proposal; if both roles fail,
ideation ends in phase "error" carrying the first failure as cause and
routing goes to "end". -/
theorem ideation_partial_failure (s : GraphState) (e1 e2 : String)
    (p : ArchitectureProposal) (hs : s.error = none) :
    ((ideation_step s (Except.error e1) (Except.ok p)).architect_proposal = none ∧
     (ideation_step s (Except.error e1) (Except.ok p)).engineer_proposal = some p ∧
     (ideation_step s (Except.error e1) (Except.ok p)).current_phase = "ideation_complete" ∧
     route_after_ideation (ideation_step s (Except.error e1) (Except.ok p)) = "cross_critique" ∧
     (∀ acRes ecRes,
        cross_critique_node (ideation_step s (Except.error e1) (Except.ok p)) acRes ecRes
          = Except.error "Both proposals must exist for cross-critique")) ∧
    ((ideation_step s (Except.ok p) (Except.error e2)).engineer_proposal = none ∧
     (ideation_step s (Except.ok p) (Except.error e2)).architect_proposal = some p ∧
     route_after_ideation (ideation_step s (Except.ok p) (Except.error e2)) = "cross_critique" ∧
     (∀ acRes ecRes,
        cross_critique_node (ideation_step s (Except.ok p) (Except.error e2)) acRes ecRes
          = Except.error "Both proposals must exist for cross-critique")) ∧
    ((ideation_step s (Except.error e1) (Except.error e2)).current_phase = "error" ∧
     (ideation_step s (Except.error e1) (Except.error e2)).error
        = some ("Ideation phase failed: " ++ e1) ∧
     route_after_ideation (ideation_step s (Except.error e1) (Except.error e2)) = "end") := by
  refine ⟨⟨?_, ?_, ?_, ?_, ?_⟩, ⟨?_, ?_, ?_, ?_⟩, ⟨?_, ?_, ?_⟩⟩
  · simp [ideation_step, Except.toOption]
  · simp [ideation_step, Except.toOption]
  · simp [ideation_step]
  · simp [route_after_ideation, ideation_step, truthyStr, hs]
  · intro acRes ecRes
    simp [cross_critique_node, ideation_step, Except.toOption]
  · simp [ideation_step, Except.toOption]
  · simp [ideation_step, Except.toOption]
  · simp [route_after_ideation, ideation_step, truthyStr, hs]
  · intro acRes ecRes
    simp [cross_critique_node, ideation_step, Except.toOption]
  · simp [ideation_step]
  · simp [ideation_step]
  · simp [route_after_ideation, ideation_step]

/-- Witness for C2 at a concrete fresh state: the engineer's proposal
survives an architect failure, and a double failure surfaces the first
cause. -/
theorem ideation_partial_failure_witness :
    (ideation_step sampleState (Except.error "architect failed")
        (Except.ok (sampleProposal "E" (3/5)))).engineer_proposal
      = some (sampleProposal "E" (3/5)) ∧
    (ideation_step sampleState (Except.error "architect failed")
        (Except.error "engineer failed")).error
      = some "Ideation phase failed: architect failed" := by
  have h := ideation_partial_failure sampleState "architect failed" "engineer failed"
    (sampleProposal "E" (3/5)) rfl
  exact ⟨h.1.2.1, h.2.2.2.1⟩

/-- Counterexample for C2 as stated: after an ideation round in which the
architect's call failed and the engineer's succeeded, routing selects
cross_critique, but the cross-critique node raises instead of proceeding
with the lone proposal. -/
theorem lone_proposal_counterexample :
    (route_after_ideation
        (ideation_step sampleState (Except.error "All models failed")
          (Except.ok (sampleProposal "E" (3/5))))
      = "cross_critique") ∧
    (cross_critique_node
        (ideation_step sampleState (Except.error "All models failed")
          (Except.ok (sampleProposal "E" (3/5))))
        (Except.ok (sampleCritique "A" (1/2))) (Except.ok (sampleCritique "E" (1/2)))
      = Except.error "Both proposals must exist for cross-critique") := by
  constructor
  · simp [route_after_ideation, ideation_step, truthyStr, sampleState]
  · simp [cross_critique_node, ideation_step, Except.toOption]

/-- C3: with `max_rounds = 3`, `round_number` starting at 0 and every
audit reporting `consensus_possible = false`, the engine visits AUDIT
exactly 3 times, then routes to ESCALATE, never entering a 4th
IDEATION (3 ideation visits); and `route_after_audit` sends a consensus
state to CONVERGENCE, an exhausted-rounds state to ESCALATE, and any
other state back to IDEATION. -/
theorem round_loop_termination (auditOf : Nat → AuditResult)
    (hall : ∀ n, (auditOf n).consensus_possible = false)
    (s0 : GraphState) (h0 : s0.round_number = 0) (hm : s0.max_rounds = 3) :
    ((engineLoop auditOf 3 s0).2 = "escalate" ∧
     (engineLoop auditOf 3 s0).1.count "audit" = 3 ∧
     (engineLoop auditOf 3 s0).1.count "ideation" = 3) ∧
    (∀ s : GraphState, s.consensus_reached = true → route_after_audit s = "convergence") ∧
    (∀ s : GraphState, s.consensus_reached = false → s.max_rounds ≤ s.round_number →
      route_after_audit s = "escalate") ∧
    (∀ s : GraphState, s.consensus_reached = false → s.round_number < s.max_rounds →
      route_after_audit s = "ideation") := by
  refine ⟨?_, ?_, ?_, ?_⟩
  · have e : engineLoop auditOf 3 s0 = (roundPhases ++ (roundPhases ++ roundPhases), "escalate") := by
      simp [engineLoop, audit_update, route_after_audit, hall, h0, hm]
    rw [e]
    refine ⟨rfl, by decide, by decide⟩
  · intro s h
    simp [route_after_audit, h]
  · intro s h1 h2
    simp [route_after_audit, h1, h2]
  · intro s h1 h2
    simp [route_after_audit, h1, Nat.not_le.mpr h2]

/-- Witness for C3 at a concrete fresh state and a constant
no-consensus audit. -/
theorem round_loop_termination_witness :
    (engineLoop (fun _ => sampleAudit false) 3 sampleState).2 = "escalate" ∧
    (engineLoop (fun _ => sampleAudit false) 3 sampleState).1.count "audit" = 3 ∧
    (engineLoop (fun _ => sampleAudit false) 3 sampleState).1.count "ideation" = 3 :=
  (round_loop_termination (fun _ => sampleAudit false) (fun _ => rfl) sampleState rfl rfl).1

/-! ## Session lifecycle (src/api/handlers.py) -/

/-- `Session` from src/api/handlers.py, restricted to the fields the
embedded session operations read or write (timestamps, model overrides
and the per-session logger are omitted). -/
structure Session where
  session_id : String
  question : String
  system_context : Option SystemContext := none
  state : Option GraphState := none
  is_complete : Bool := false
deriving DecidableEq, Repr

/-- `SessionManager.run_session` (src/api/handlers.py lines 190-267) with
the engine run abstracted: `engineFinal` is the final state produced by
`run_graph_stream` for the session's current question.  The handler
collects the previous conversation turns from the stored state, runs the
graph, and — when a final ADR was produced — appends a new
`ConversationTurn` with `turn_id = len(previous_turns) + 1`, carrying
every previous turn forward unchanged; the session is then marked
complete (line 256 sets `is_complete = True` unconditionally).
Persistence and logging are omitted. -/
def run_session (session : Session) (engineFinal : GraphState) : Session :=
  let previous_turns :=
    match session.state with
    | some st => st.conversation_turns
    | none => []
  let final_state :=
    match engineFinal.final_adr with
    | some adr =>
        { engineFinal with conversation_turns :=
            previous_turns ++ [{ turn_id := previous_turns.length + 1
                                 question := session.question
                                 adr := adr }] }
    | none => engineFinal
  { session with state := some final_state, is_complete := true }

/-- `SessionManager.continue_session` (src/api/handlers.py lines
269-304): the session must exist, be complete, and its state must carry
a final ADR; only then is the question replaced, the completion flag
cleared and the graph re-run via `run_session`.  All three checks precede
every mutation, so a failing continue leaves the session unchanged. -/
def continue_session (session : Option Session) (follow_up_question : String)
    (engineFinal : GraphState) : Except String Session :=
  match session with
  | none => Except.error "Session not found"
  | some s =>
      if s.is_complete = false then
        Except.error ("Session " ++ s.session_id ++ " is not complete yet")
      else
        match s.state with
        | none => Except.error ("Session " ++ s.session_id ++ " has no result to follow up on")
        | some st =>
            match st.final_adr with
            | none =>
                Except.error ("Session " ++ s.session_id ++ " has no result to follow up on")
            | some _ =>
                Except.ok (run_session
                  { s with question := follow_up_question, is_complete := false } engineFinal)

/-- A minimal decision-record fixture. -/
def sampleADR (t : String) : ArchitectureDecisionRecord :=
  { title := t, date := 0, decision := "d", rationale := "r", context := "c"
    majority_opinion := sampleProposal "A" (4/5), consensus_level := 1/2, rounds_taken := 1 }

/-- A completed session fixture holding one conversation turn. -/
def sampleCompletedSession : Session :=
  { session_id := "s1", question := "q1", is_complete := true
    state := some { sampleState with
      final_adr := some (sampleADR "ADR 1")
      conversation_turns := [{ turn_id := 1, question := "q1", adr := sampleADR "ADR 1" }] } }

/-- A follow-up engine outcome fixture producing a second ADR. -/
def sampleFollowUpFinal : GraphState :=
  { sampleState with final_adr := some (sampleADR "ADR 2") }

/-- C8: continuing requires the prior session to be complete with a
DecisionRecord — a missing, incomplete or ADR-less session makes the
continue fail with an error, producing no changed session — and a
successful continue appends a new ConversationTurn (id = previous count
+ 1, with the follow-up question and the new ADR) while every previous
turn is preserved unchanged and accessible in the stored list. -/
theorem continue_session_spec :
    (∀ q ef, continue_session none q ef = Except.error "Session not found") ∧
    (∀ (s : Session) q ef, s.is_complete = false →
      continue_session (some s) q ef
        = Except.error ("Session " ++ s.session_id ++ " is not complete yet")) ∧
    (∀ (s : Session) q ef, s.is_complete = true → s.state = none →
      continue_session (some s) q ef
        = Except.error ("Session " ++ s.session_id ++ " has no result to follow up on")) ∧
    (∀ (s : Session) (st : GraphState) q ef, s.is_complete = true → s.state = some st →
      st.final_adr = none →
      continue_session (some s) q ef
        = Except.error ("Session " ++ s.session_id ++ " has no result to follow up on")) ∧
    (∀ (s : Session) (st : GraphState) (adr adr2 : ArchitectureDecisionRecord) q
        (ef : GraphState),
      s.is_complete = true → s.state = some st → st.final_adr = some adr →
      ef.final_adr = some adr2 →
      ∃ s2, continue_session (some s) q ef = Except.ok s2 ∧
        s2.question = q ∧ s2.is_complete = true ∧
        ∃ st2, s2.state = some st2 ∧
          st2.conversation_turns
            = st.conversation_turns
              ++ [{ turn_id := st.conversation_turns.length + 1, question := q, adr := adr2 }]) := by
  refine ⟨?_, ?_, ?_, ?_, ?_⟩
  · intro q ef
    rfl
  · intro s q ef h
    simp [continue_session, h]
  · intro s q ef h1 h2
    simp [continue_session, h1, h2]
  · intro s st q ef h1 h2 h3
    simp [continue_session, h1, h2, h3]
  · intro s st adr adr2 q ef h1 h2 h3 h4
    have hcont : continue_session (some s) q ef
        = Except.ok (run_session { s with question := q, is_complete := false } ef) := by
      simp [continue_session, h1, h2, h3]
    refine ⟨_, hcont, rfl, rfl, ?_⟩
    refine ⟨_, rfl, ?_⟩
    simp [run_session, h2, h4]

/-- Witness for C8: continuing a completed one-turn session with a new
question yields a second turn while the first is unchanged. -/
theorem continue_session_spec_witness :
    ∃ s2, continue_session (some sampleCompletedSession) "q2" sampleFollowUpFinal
        = Except.ok s2 ∧
      s2.question = "q2" ∧ s2.is_complete = true ∧
      ∃ st2, s2.state = some st2 ∧
        st2.conversation_turns
          = [{ turn_id := 1, question := "q1", adr := sampleADR "ADR 1" },
             { turn_id := 2, question := "q2", adr := sampleADR "ADR 2" }] := by
  obtain ⟨s2, h1, h2, h3, st2, h4, h5⟩ :=
    continue_session_spec.2.2.2.2 sampleCompletedSession _
      (sampleADR "ADR 1") (sampleADR "ADR 2") "q2" sampleFollowUpFinal rfl rfl rfl rfl
  exact ⟨s2, h1, h2, h3, st2, h4, by rw [h5]; rfl⟩

end StaffSystem
